import Mathlib

/-!
Shallow embedding of `app.py` (jogos-santa-casa-dashboard): a Streamlit
dashboard that loads a table of sale records, filters it by a date range and
a product selection, and computes KPI sums, a weekly sales aggregation and a
per-product aggregation.  Dates are modelled as epoch day numbers (days since
1970-01-01, which was a Thursday) plus a time-of-day component; currency
amounts are modelled as rationals; the pandas DataFrame is modelled as a
`List SaleRecord`.
-/

namespace SantaCasa

/-- A timestamp as stored in the `data` column: an epoch day number together
with a time-of-day component (seconds within the day).  `pandas.to_datetime`
produces such timestamps; `.dt.date` projects out the `day` field. -/
structure DateTime where
  day : Int
  tod : Nat
deriving DecidableEq

/-- One row of the `vendas` table after type coercion: date of sale, product
label, sales amount, target amount and profit amount (columns `data`,
`produto`, `vendas`, `objectivo`, `lucro` in the source query). -/
structure SaleRecord where
  data : DateTime
  produto : String
  vendas : Rat
  objectivo : Rat
  lucro : Rat
deriving DecidableEq

/-- Conversion of a civil calendar date to its epoch day number (standard
`days_from_civil` algorithm, with Euclidean division).  Used only to write
concrete dates readably in theorems. -/
def toEpochDay (y m d : Int) : Int :=
  let yy := if m ≤ 2 then y - 1 else y
  let era := yy / 400
  let yoe := yy - era * 400
  let mp := (m + 9) % 12
  let doy := (153 * mp + 2) / 5 + d - 1
  let doe := yoe * 365 + yoe / 4 - yoe / 100 + doy
  era * 146097 + doe - 719468

/-- Day of week of an epoch day, with Monday = 0 (1970-01-01, day 0, was a
Thursday, weekday 3). -/
def weekday (d : Int) : Int := (d + 3) % 7

/-- `mascara_datas` (app.py line 96): Boolean mask
`df.data.dt.date.between(inicio, fim)` — the date comparison is done on the
`.dt.date` projection, i.e. at day granularity, and `between` is inclusive on
both ends. -/
def mascara_datas (inicio fim : Int) (r : SaleRecord) : Bool :=
  decide (inicio ≤ r.data.day) && decide (r.data.day ≤ fim)

/-- `mascara_produtos` (app.py line 97): Boolean mask
`df.produto.isin(produtos_seleccionados)`. -/
def mascara_produtos (sel : List String) (r : SaleRecord) : Bool :=
  sel.contains r.produto

/-- `df_filt` (app.py line 98): `df.loc[mascara_datas & mascara_produtos]`. -/
def df_filt (df : List SaleRecord) (inicio fim : Int) (sel : List String) :
    List SaleRecord :=
  df.filter (fun r => mascara_datas inicio fim r && mascara_produtos sel r)

/-- Pandas column sum: `df_filt[c].sum()` for a numeric column, which is `0`
on an empty frame. -/
def sumBy (f : SaleRecord → Rat) (l : List SaleRecord) : Rat := (l.map f).sum

/-- `total_vendas` (app.py line 101): `df_filt.vendas.sum()`. -/
def total_vendas (l : List SaleRecord) : Rat := sumBy (fun r => r.vendas) l

/-- `total_obj` (app.py line 102): `df_filt.objectivo.sum()`. -/
def total_obj (l : List SaleRecord) : Rat := sumBy (fun r => r.objectivo) l

/-- `total_lucro` (app.py line 103): `df_filt.lucro.sum()`. -/
def total_lucro (l : List SaleRecord) : Rat := sumBy (fun r => r.lucro) l

/-- `desvio_pct` (app.py line 105):
`(total_vendas - total_obj) / total_obj * 100 if total_obj else 0` — the
Python conditional tests the truthiness of `total_obj`, i.e. `total_obj ≠ 0`. -/
def desvio_pct (l : List SaleRecord) : Rat :=
  if total_obj l ≠ 0 then (total_vendas l - total_obj l) / total_obj l * 100
  else 0

/-- The frequency string literally present in the source
(app.py line 119, `pd.Grouper(key='data', freq='W‑MON')`): its dash is the
Unicode non-breaking hyphen U+2011, not the ASCII hyphen-minus. -/
def freqInSource : String := "W‑MON"

/-- The weekly frequency aliases that `pandas.tseries.frequencies.to_offset`
accepts: plain `W` or `W-` followed by a three-letter weekday anchor, with an
ASCII hyphen.  Any other string raises `ValueError: Invalid frequency`. -/
def validWeeklyFreq (s : String) : Bool :=
  (["W", "W-MON", "W-TUE", "W-WED", "W-THU", "W-FRI", "W-SAT",
    "W-SUN"] : List String).contains s

/-- The bucket label pandas assigns to epoch day `d` under frequency `W-MON`
(weeks anchored on Monday, `closed=right`, `label=right`, the defaults for
weekly frequencies): the first Monday on or after `d`, i.e. each bucket is
the week ENDING on its labelling Monday.  For daily-or-coarser frequencies
pandas widens each bin edge to the end of the label day, so a timestamp is
bucketed by its date part alone. -/
def wmonLabel (d : Int) : Int := d + (-(d + 3)) % 7

/-- Grouping a frame by `pd.Grouper(key='data', freq='W-MON')` and summing
`vendas` (the body of `df_semana`, assuming a valid frequency): pandas builds
the regular grid of weekly bins from the first to the last occupied label —
intermediate empty bins are present with sum `0` — in ascending label order. -/
def groupWeekly (l : List SaleRecord) : List (Int × Rat) :=
  match l.map (fun r => wmonLabel r.data.day) with
  | [] => []
  | w :: ws =>
    let lo := ws.foldl min w
    let hi := ws.foldl max w
    (List.range (((hi - lo) / 7).toNat + 1)).map (fun (i : Nat) =>
      (lo + 7 * (i : Int), sumBy (fun r => r.vendas)
        (l.filter (fun r => wmonLabel r.data.day == lo + 7 * (i : Int)))))

/-- `df_semana` (app.py lines 117-122):
`df_filt.groupby(pd.Grouper(key='data', freq='W‑MON')).agg(vendas=(…,'sum'))`.
Constructing the `Grouper` calls `to_offset(freq)`, which raises
`ValueError: Invalid frequency: W‑MON` when the frequency string does not
parse; only with a valid frequency does the weekly grouping run. -/
def df_semana (l : List SaleRecord) : Except String (List (Int × Rat)) :=
  if validWeeklyFreq freqInSource then Except.ok (groupWeekly l)
  else Except.error ("Invalid frequency: " ++ freqInSource)

/-- The weekly aggregation after the one-character repair the spec directs
(section 9: treat the non-ASCII dash as a typo), i.e. with frequency string
`W-MON` (ASCII hyphen), which `to_offset` accepts. -/
def df_semana_fixed (l : List SaleRecord) : Except String (List (Int × Rat)) :=
  if validWeeklyFreq "W-MON" then Except.ok (groupWeekly l)
  else Except.error ("Invalid frequency: " ++ "W-MON")

/-- Lexicographic order on character lists, by code point — the order pandas
uses to sort string group keys. -/
def charListLeb : List Char → List Char → Bool
  | [], _ => true
  | _ :: _, [] => false
  | a :: as, b :: bs =>
    if a.val < b.val then true
    else if b.val < a.val then false
    else charListLeb as bs

/-- Lexicographic order on strings, by code point. -/
def pandasKeyLe (a b : String) : Bool := charListLeb a.data b.data

/-- `df_prod` (app.py lines 136-141):
`df_filt.groupby('produto').agg(vendas=('vendas','sum'), objectivo=('objectivo','sum'))`.
Pandas `groupby` on a label column emits one row per distinct key, keys
sorted ascending (`sort=True` is the default), each with the column sums over
that key's records. -/
def df_prod (l : List SaleRecord) : List (String × Rat × Rat) :=
  (((l.map (fun r => r.produto)).dedup).insertionSort
      (fun a b => pandasKeyLe a b = true)).map
    (fun p =>
      (p, sumBy (fun r => r.vendas) (l.filter (fun r => r.produto == p)),
          sumBy (fun r => r.objectivo) (l.filter (fun r => r.produto == p))))

/-- The configuration visible to `load_data` (app.py line 40):
`st.secrets.get("DATABASE_URL")` and
`st.experimental_get_query_params().get("db", [None])[0]`, each `None` when
absent. -/
structure Config where
  secretsDatabaseUrl : Option String
  queryParamDb : Option String
deriving DecidableEq

/-- Python truthiness of an optional string: `None` and `""` are falsy. -/
def pyTruthy : Option String → Bool
  | none => false
  | some s => !(s == "")

/-- Python `a or b` on optional strings. -/
def pyOr (a b : Option String) : Option String := if pyTruthy a then a else b

/-- `database_url` (app.py line 40): the secrets entry, or-else the `db`
query parameter. -/
def database_url (c : Config) : Option String :=
  pyOr c.secretsDatabaseUrl c.queryParamDb

/-- A raw value of the `data` column as returned by the SQL query: either
already a timestamp (`DATE`/`TIMESTAMP` column) or a textual civil date. -/
inductive SqlDate where
  | timestamp (dt : DateTime)
  | text (y m d : Int)
deriving DecidableEq

/-- A raw row of the `vendas` table, before type coercion. -/
structure RawRecord where
  data : SqlDate
  produto : String
  vendas : Rat
  objectivo : Rat
  lucro : Rat
deriving DecidableEq

/-- `pd.to_datetime` applied to one `data` value (app.py line 63): leaves a
timestamp unchanged and parses a textual date to a midnight timestamp. -/
def to_datetime : SqlDate → DateTime
  | SqlDate.timestamp dt => dt
  | SqlDate.text y m d => ⟨toEpochDay y m d, 0⟩

/-- Row-wise effect of `df['data'] = pd.to_datetime(df['data'])`. -/
def coerceRow (r : RawRecord) : SaleRecord :=
  ⟨to_datetime r.data, r.produto, r.vendas, r.objectivo, r.lucro⟩

/-- The result of running `load_data` (app.py lines 37-65): either the script
was halted by `st.error(...)`/`st.stop()` before any engine was created or
query issued, or the full coerced table was returned. -/
inductive LoadOutcome where
  | halted (errMsg : String)
  | loaded (table : List SaleRecord)
deriving DecidableEq

/-- `load_data` (app.py lines 37-65): resolve `database_url`; if it is `None`,
report a user-visible error and stop (no engine, no query); otherwise run the
fixed `SELECT` over the `vendas` table (modelled as the database contents
`db`) and coerce the `data` column with `pd.to_datetime`. -/
def load_data (c : Config) (db : List RawRecord) : LoadOutcome :=
  match database_url c with
  | none => LoadOutcome.halted
      "Defina a variavel de ligacao a base de dados em st.secrets[DATABASE_URL]."
  | some _ => LoadOutcome.loaded (db.map coerceRow)

/-- Number of database queries `load_data` issues on one (uncached) run:
`pd.read_sql` sits after the `st.stop()` guard, so a missing connection
string issues none. -/
def queriesIssued (c : Config) : Nat :=
  match database_url c with
  | none => 0
  | some _ => 1

/-- One entry of the `st.cache_data` cache: the cached value and the time it
was fetched.  Modelled from the spec: the Streamlit cache machinery behind
`@st.cache_data(ttl=3600)` (app.py line 36) is library-internal; section 9
directs to model it as an explicit entry `{value, fetched_at}` checked
against the expiry on each access. -/
structure CacheEntry (α : Type) where
  value : α
  fetched_at : Nat
deriving DecidableEq

/-- The time-to-live of the `load_data` cache, in seconds
(`@st.cache_data(ttl=3600)`, app.py line 36). -/
def ttlSeconds : Nat := 3600

/-- Modelled from the spec: one access to a `st.cache_data`-cached loader at
time `now` — if a cache entry exists and is younger than the time-to-live,
return it without fetching; otherwise fetch, store and return fresh data.
Returns the value, the cache afterwards, and whether the underlying loader
(and hence the database query) actually ran. -/
def cachedCall {α : Type} (fetch : Nat → α) (cache : Option (CacheEntry α))
    (now : Nat) : α × Option (CacheEntry α) × Bool :=
  match cache with
  | some e =>
    if now - e.fetched_at < ttlSeconds then (e.value, some e, false)
    else (fetch now, some ⟨fetch now, now⟩, true)
  | none => (fetch now, some ⟨fetch now, now⟩, true)

/-- `min_day, max_day` (app.py line 76):
`df.data.min().date(), df.data.max().date()`.  On a non-empty frame these
are the extremal dates; on an empty frame `Series.min()` is `NaT` and
`NaT.date()` raises `ValueError: NaTType does not support date`, so no
bounds are produced. -/
def datePickerBounds (df : List SaleRecord) : Except String (Int × Int) :=
  match df.map (fun r => r.data.day) with
  | [] => Except.error "NaTType does not support date"
  | d :: ds => Except.ok (ds.foldl min d, ds.foldl max d)

lemma sumBy_nil (f : SaleRecord → Rat) : sumBy f [] = 0 := rfl

lemma sumBy_cons (f : SaleRecord → Rat) (r : SaleRecord) (t : List SaleRecord) :
    sumBy f (r :: t) = f r + sumBy f t := by
  simp [sumBy]

/-- Splitting a column sum along a Boolean predicate. -/
lemma sumBy_filter_add (f : SaleRecord → Rat) (p : SaleRecord → Bool)
    (l : List SaleRecord) :
    sumBy f (l.filter p) + sumBy f (l.filter fun r => !p r) = sumBy f l := by
  induction l with
  | nil => simp [sumBy]
  | cons r t ih =>
    cases hp : p r with
    | true =>
      simp only [List.filter_cons, hp, Bool.not_true, if_true, if_false,
        sumBy_cons, Bool.false_eq_true, ite_false, ite_true]
      linarith [ih]
    | false =>
      simp only [List.filter_cons, hp, Bool.not_false, if_true, if_false,
        sumBy_cons, Bool.false_eq_true, ite_false, ite_true]
      linarith [ih]

/-- A grouped column sum over a duplicate-free, covering list of keys adds up
to the ungrouped column sum. -/
lemma sum_over_keys (f : SaleRecord → Rat) :
    ∀ (ks : List String) (l : List SaleRecord), ks.Nodup →
      (∀ r ∈ l, r.produto ∈ ks) →
      (ks.map (fun k => sumBy f (l.filter (fun r => r.produto == k)))).sum
        = sumBy f l := by
  intro ks
  induction ks with
  | nil =>
    intro l _ h
    cases l with
    | nil => simp [sumBy]
    | cons r t => exact absurd (h r (List.mem_cons_self r t)) (List.not_mem_nil _)
  | cons k kt ih =>
    intro l hnd h
    have hk : k ∉ kt := (List.nodup_cons.mp hnd).1
    have hndt : kt.Nodup := (List.nodup_cons.mp hnd).2
    have hfilt : ∀ k2 ∈ kt,
        l.filter (fun r => r.produto == k2)
          = (l.filter (fun r => !(r.produto == k))).filter
              (fun r => r.produto == k2) := by
      intro k2 hk2
      rw [List.filter_filter]
      apply List.filter_congr
      intro r _
      cases hb : r.produto == k2 with
      | false => simp
      | true =>
        have hpk : r.produto = k2 := by simpa using hb
        have hne : (r.produto == k) = false := by
          have : r.produto ≠ k := by
            intro hkk
            exact hk ((hpk ▸ hkk) ▸ hk2)
          simpa using this
        simp [hne]
    have htail :
        (kt.map (fun k2 => sumBy f (l.filter (fun r => r.produto == k2)))).sum
          = sumBy f (l.filter (fun r => !(r.produto == k))) := by
      have hmap :
          kt.map (fun k2 => sumBy f (l.filter (fun r => r.produto == k2)))
            = kt.map (fun k2 => sumBy f
                ((l.filter (fun r => !(r.produto == k))).filter
                  (fun r => r.produto == k2))) :=
        List.map_congr_left (fun k2 hk2 => by rw [hfilt k2 hk2])
      rw [hmap]
      apply ih
      · exact hndt
      · intro r hr
        have hr2 := List.mem_filter.mp hr
        have hmem := h r hr2.1
        cases List.mem_cons.mp hmem with
        | inl heq =>
          have : (r.produto == k) = true := by simpa using heq
          rw [this] at hr2
          simp at hr2
        | inr hm => exact hm
    calc ((k :: kt).map
            (fun k2 => sumBy f (l.filter (fun r => r.produto == k2)))).sum
        = sumBy f (l.filter (fun r => r.produto == k))
            + (kt.map (fun k2 =>
                sumBy f (l.filter (fun r => r.produto == k2)))).sum := by
          simp
      _ = sumBy f (l.filter (fun r => r.produto == k))
            + sumBy f (l.filter (fun r => !(r.produto == k))) := by
          rw [htail]
      _ = sumBy f l := sumBy_filter_add f (fun r => r.produto == k) l

/-- Membership characterisation of the filter stage: a record survives
`df_filt` iff it is in the table, its day lies in the inclusive range, and
its product is selected.  The characterisation never looks at the
time-of-day field. -/
lemma mem_df_filt (df : List SaleRecord) (inicio fim : Int) (sel : List String)
    (r : SaleRecord) :
    r ∈ df_filt df inicio fim sel ↔
      r ∈ df ∧ (inicio ≤ r.data.day ∧ r.data.day ≤ fim) ∧ r.produto ∈ sel := by
  simp [df_filt, List.mem_filter, mascara_datas, mascara_produtos,
    List.elem_iff, and_assoc]

/-- The three-row scenario of spec section 8: rows
(2024-01-08, A, 100, 80, 20), (2024-01-15, A, 200, 80, 50),
(2024-01-08, B, 50, 100, 5). -/
def scenarioRows : List SaleRecord :=
  [⟨⟨toEpochDay 2024 1 8, 0⟩, "A", 100, 80, 20⟩,
   ⟨⟨toEpochDay 2024 1 15, 0⟩, "A", 200, 80, 50⟩,
   ⟨⟨toEpochDay 2024 1 8, 0⟩, "B", 50, 100, 5⟩]

/-- Two rows two weeks apart (2024-01-08 and 2024-01-22), leaving the week
labelled 2024-01-15 without any matching record. -/
def gapRows : List SaleRecord :=
  [⟨⟨toEpochDay 2024 1 8, 0⟩, "A", 100, 80, 20⟩,
   ⟨⟨toEpochDay 2024 1 22, 0⟩, "A", 200, 80, 50⟩]

/-- Claim C1: the spec says weekly buckets start each Monday and that a
record dated Wednesday 2024-01-10 lands in the bucket labelled Monday
2024-01-08.  The code instead fails: its frequency string carries a
non-ASCII hyphen (U+2011), so constructing the `Grouper` raises
`ValueError: Invalid frequency: W‑MON` and no bucket is ever produced; and
even with the hyphen repaired, pandas `W-MON` labels each bucket with the
Monday ENDING the week, so the Wednesday record lands in the bucket
labelled Monday 2024-01-15, not 2024-01-08. -/
theorem C1_weekly_bucket_failing_input :
    df_semana [⟨⟨toEpochDay 2024 1 10, 0⟩, "A", 100, 80, 20⟩]
        = Except.error ("Invalid frequency: " ++ freqInSource)
    ∧ df_semana_fixed [⟨⟨toEpochDay 2024 1 10, 0⟩, "A", 100, 80, 20⟩]
        = Except.ok [(toEpochDay 2024 1 15, 100)]
    ∧ weekday (toEpochDay 2024 1 10) = 2
    ∧ weekday (toEpochDay 2024 1 15) = 0
    ∧ toEpochDay 2024 1 15 ≠ toEpochDay 2024 1 8 := by
  refine ⟨rfl, ?_, rfl, rfl, by decide⟩
  have h : df_semana_fixed [⟨⟨toEpochDay 2024 1 10, 0⟩, "A", 100, 80, 20⟩]
      = Except.ok [(toEpochDay 2024 1 15, 100 + 0)] := rfl
  rw [h]; norm_num

/-- Claim C2: over any filtered record set the KPI stage computes
`total_vendas`, `total_obj` and `total_lucro` as the column sums, and
`desvio_pct` as `(total_vendas - total_obj) / total_obj * 100` when the
target total is nonzero and as `0` (no error) when it is zero. -/
theorem C2_kpi_stage (l : List SaleRecord) :
    total_vendas l = (l.map (fun r => r.vendas)).sum
    ∧ total_obj l = (l.map (fun r => r.objectivo)).sum
    ∧ total_lucro l = (l.map (fun r => r.lucro)).sum
    ∧ (total_obj l ≠ 0 →
        desvio_pct l = (total_vendas l - total_obj l) / total_obj l * 100)
    ∧ (total_obj l = 0 → desvio_pct l = 0) := by
  refine ⟨rfl, rfl, rfl, ?_, ?_⟩
  · intro h; simp [desvio_pct, h]
  · intro h; simp [desvio_pct, h]

/-- Witness for C2: a set with total sales 500 and total target 0 yields
deviation 0, and a set with totals 350 and 260 yields the exact formula. -/
theorem C2_kpi_stage_witness :
    desvio_pct [⟨⟨19730, 0⟩, "A", 500, 0, 0⟩] = 0
    ∧ desvio_pct [⟨⟨19730, 0⟩, "A", 350, 260, 0⟩]
        = (350 - 260) / 260 * 100 := by
  constructor
  · exact (C2_kpi_stage [⟨⟨19730, 0⟩, "A", 500, 0, 0⟩]).2.2.2.2
      (by simp [total_obj, sumBy])
  · have h := (C2_kpi_stage [⟨⟨19730, 0⟩, "A", 350, 260, 0⟩]).2.2.2.1
      (by norm_num [total_obj, sumBy])
    rw [show total_vendas [⟨⟨19730, 0⟩, "A", 350, 260, 0⟩] = 350 + 0 from rfl,
        show total_obj [⟨⟨19730, 0⟩, "A", 350, 260, 0⟩] = 260 + 0 from rfl] at h
    rw [h]; norm_num

/-- Claim C3: the filter stage keeps exactly the records whose day lies in
the inclusive range `[inicio, fim]` — compared at day granularity, the
time-of-day field never being consulted — and whose product is selected;
in particular a record dated exactly on the end boundary (here with a
nonzero time-of-day) is kept. -/
theorem C3_filter_inclusive_day_granularity :
    (∀ (df : List SaleRecord) (inicio fim : Int) (sel : List String)
        (r : SaleRecord),
      r ∈ df_filt df inicio fim sel ↔
        r ∈ df ∧ (inicio ≤ r.data.day ∧ r.data.day ≤ fim) ∧ r.produto ∈ sel)
    ∧ df_filt [⟨⟨toEpochDay 2024 1 15, 7200⟩, "A", 1, 2, 3⟩]
        (toEpochDay 2024 1 8) (toEpochDay 2024 1 15) ["A"]
      = [⟨⟨toEpochDay 2024 1 15, 7200⟩, "A", 1, 2, 3⟩] :=
  ⟨mem_df_filt, rfl⟩

/-- Claim C4: whatever the table and date range, an empty product selection
filters out every record, and over the resulting empty set all four KPIs
are 0. -/
theorem C4_empty_product_selection (df : List SaleRecord) (inicio fim : Int) :
    df_filt df inicio fim [] = []
    ∧ total_vendas (df_filt df inicio fim []) = 0
    ∧ total_obj (df_filt df inicio fim []) = 0
    ∧ total_lucro (df_filt df inicio fim []) = 0
    ∧ desvio_pct (df_filt df inicio fim []) = 0 := by
  have h : df_filt df inicio fim [] = [] := by
    simp [df_filt, mascara_produtos]
  refine ⟨h, ?_, ?_, ?_, ?_⟩ <;> rw [h]
  · rfl
  · rfl
  · rfl
  · simp [desvio_pct, total_obj, sumBy]

/-- Claim C5: for a non-empty filtered set, the per-product sales totals of
`df_prod` add up to `total_vendas` over the same set. -/
theorem C5_per_product_sum_consistent (l : List SaleRecord) (_h : l ≠ []) :
    ((df_prod l).map (fun t => t.2.1)).sum = total_vendas l := by
  have hkeys :
      (((l.map (fun r => r.produto)).dedup).insertionSort
          (fun a b => pandasKeyLe a b = true)).Nodup :=
    (List.perm_insertionSort _ _).nodup_iff.mpr (List.nodup_dedup _)
  have hcov : ∀ r ∈ l, r.produto ∈
      ((l.map (fun r => r.produto)).dedup).insertionSort
        (fun a b => pandasKeyLe a b = true) := by
    intro r hr
    rw [(List.perm_insertionSort _ _).mem_iff, List.mem_dedup]
    exact List.mem_map_of_mem _ hr
  have hmm : ((df_prod l).map (fun t => t.2.1)) =
      (((l.map (fun r => r.produto)).dedup).insertionSort
          (fun a b => pandasKeyLe a b = true)).map
        (fun k => sumBy (fun r => r.vendas)
          (l.filter (fun r => r.produto == k))) := by
    rw [df_prod, List.map_map]
    rfl
  rw [hmm]
  exact sum_over_keys (fun r => r.vendas) _ l hkeys hcov

/-- Witness for C5 at a concrete non-empty one-record set. -/
theorem C5_per_product_sum_consistent_witness :
    ([(⟨⟨19730, 0⟩, "A", 100, 80, 20⟩ : SaleRecord)] ≠ [])
    ∧ ((df_prod [(⟨⟨19730, 0⟩, "A", 100, 80, 20⟩ : SaleRecord)]).map
        (fun t => t.2.1)).sum
      = total_vendas [(⟨⟨19730, 0⟩, "A", 100, 80, 20⟩ : SaleRecord)] :=
  ⟨List.cons_ne_nil _ _,
   C5_per_product_sum_consistent _ (List.cons_ne_nil _ _)⟩

/-- Claim C6: on the section-8 scenario rows with the full date range and
both products selected, the filter keeps all three rows and the KPI stage
yields total sales 350, total target 260 and deviation 450/13 ≈ 34.6 %,
exactly as the spec claims.  But the weekly stage then raises
`ValueError: Invalid frequency: W‑MON` (non-ASCII hyphen in the frequency
string), halting the script before the weekly and per-product outputs are
rendered; the values the spec lists — weekly totals [(2024-01-08, 150),
(2024-01-15, 200)] and per-product totals A:(300, 160), B:(50, 100) — are
exactly what the repaired code produces. -/
theorem C6_end_to_end_scenario :
    df_filt scenarioRows (toEpochDay 2024 1 8) (toEpochDay 2024 1 15)
        ["A", "B"] = scenarioRows
    ∧ total_vendas scenarioRows = 350
    ∧ total_obj scenarioRows = 260
    ∧ desvio_pct scenarioRows = 450 / 13
    ∧ df_semana scenarioRows
        = Except.error ("Invalid frequency: " ++ freqInSource)
    ∧ df_semana_fixed scenarioRows
        = Except.ok [(toEpochDay 2024 1 8, 150), (toEpochDay 2024 1 15, 200)]
    ∧ df_prod scenarioRows = [("A", 300, 160), ("B", 50, 100)] := by
  refine ⟨rfl, ?_, ?_, ?_, rfl, ?_, ?_⟩
  · have h : total_vendas scenarioRows = 100 + (200 + (50 + 0)) := rfl
    rw [h]; norm_num
  · have h : total_obj scenarioRows = 80 + (80 + (100 + 0)) := rfl
    rw [h]; norm_num
  · have hv : total_vendas scenarioRows = 100 + (200 + (50 + 0)) := rfl
    have ho : total_obj scenarioRows = 80 + (80 + (100 + 0)) := rfl
    have hne : total_obj scenarioRows ≠ 0 := by rw [ho]; norm_num
    rw [desvio_pct, if_pos hne, hv, ho]; norm_num
  · have h : df_semana_fixed scenarioRows
        = Except.ok [(toEpochDay 2024 1 8, 100 + (50 + 0)),
                     (toEpochDay 2024 1 15, 200 + 0)] := rfl
    rw [h]; norm_num
  · have h : df_prod scenarioRows
        = [("A", 100 + (200 + 0), 80 + (80 + 0)),
           ("B", 50 + 0, 100 + 0)] := rfl
    rw [h]; norm_num

/-- Claim C7 counterexample: the weekly aggregation as written produces no
output sequence at all — the invalid frequency string makes it raise — and
even under the spec's own typo repair the week labelled 2024-01-15, which
matches no record of `gapRows`, appears in the output with total 0, so the
no-zero-fill clause fails as well. -/
theorem C7_weekly_zero_fill_refuted :
    df_semana gapRows = Except.error ("Invalid frequency: " ++ freqInSource)
    ∧ (toEpochDay 2024 1 15, (0 : Rat)) ∈ groupWeekly gapRows := by
  refine ⟨rfl, ?_⟩
  have h : groupWeekly gapRows
      = [(toEpochDay 2024 1 8, 100 + 0), (toEpochDay 2024 1 15, 0),
         (toEpochDay 2024 1 22, 200 + 0)] := rfl
  rw [h]; simp

/-- Claim C7 as amended: the weekly aggregation as written never yields an
output — pandas rejects the frequency string (its hyphen is U+2011) with
`ValueError: Invalid frequency: W‑MON` for every input.  Under the spec's
section-9 repair of the typo, the (week label, total sales) pairs are
strictly ascending by date, but pandas zero-fills: a week with zero
matching records lying between occupied weeks is present with total 0
rather than omitted, as `gapRows` shows. -/
theorem C7_weekly_output_amended :
    (∀ l : List SaleRecord,
        df_semana l = Except.error ("Invalid frequency: " ++ freqInSource))
    ∧ (∀ l : List SaleRecord,
        (groupWeekly l).Pairwise (fun a b => a.1 < b.1))
    ∧ groupWeekly gapRows
        = [(toEpochDay 2024 1 8, 100), (toEpochDay 2024 1 15, 0),
           (toEpochDay 2024 1 22, 200)] := by
  refine ⟨fun l => rfl, fun l => ?_, ?_⟩
  · unfold groupWeekly
    cases l.map (fun r => wmonLabel r.data.day) with
    | nil => simp
    | cons w ws =>
      refine List.Pairwise.map _ (fun a b hab => ?_) (List.pairwise_lt_range _)
      dsimp only
      have hab2 : (a : Int) < (b : Int) := by exact_mod_cast hab
      linarith
  · have h : groupWeekly gapRows
        = [(toEpochDay 2024 1 8, 100 + 0), (toEpochDay 2024 1 15, 0),
           (toEpochDay 2024 1 22, 200 + 0)] := rfl
    rw [h]; norm_num

/-- Claim C8: with no connection string resolvable, `load_data` reports a
user-visible configuration error and stops — no query is issued and no
table is returned; with one present it issues the single query and returns
the full table with the `data` column coerced by `pd.to_datetime`. -/
theorem C8_loader_config_error (c : Config) (db : List RawRecord) :
    (database_url c = none →
        load_data c db = LoadOutcome.halted
          "Defina a variavel de ligacao a base de dados em st.secrets[DATABASE_URL]."
        ∧ queriesIssued c = 0)
    ∧ (∀ u : String, database_url c = some u →
        load_data c db = LoadOutcome.loaded (db.map coerceRow)
        ∧ queriesIssued c = 1) := by
  constructor
  · intro h
    constructor <;> simp [load_data, queriesIssued, h]
  · intro u h
    constructor <;> simp [load_data, queriesIssued, h]

/-- Witness for C8: a fully absent configuration halts with the error and
issues no query; a present secrets entry loads the (empty) table with one
query. -/
theorem C8_loader_config_error_witness :
    (load_data ⟨none, none⟩ []
        = LoadOutcome.halted
          "Defina a variavel de ligacao a base de dados em st.secrets[DATABASE_URL]."
      ∧ queriesIssued ⟨none, none⟩ = 0)
    ∧ (load_data ⟨some "postgresql://u:p@host/db", none⟩ []
        = LoadOutcome.loaded []
      ∧ queriesIssued ⟨some "postgresql://u:p@host/db", none⟩ = 1) := by
  constructor
  · exact (C8_loader_config_error ⟨none, none⟩ []).1 rfl
  · exact (C8_loader_config_error ⟨some "postgresql://u:p@host/db", none⟩ []).2
      "postgresql://u:p@host/db" rfl

/-- Claim C9: a first loader call at `t1` fetches and caches; a second call
within the 1-hour time-to-live returns the first call's table without
running the loader (no re-query); a call at or past expiry refetches. -/
theorem C9_cache_ttl (fetch : Nat → List SaleRecord) (t1 t2 : Nat) :
    cachedCall fetch none t1 = (fetch t1, some ⟨fetch t1, t1⟩, true)
    ∧ (t2 - t1 < ttlSeconds →
        cachedCall fetch (some ⟨fetch t1, t1⟩) t2
          = (fetch t1, some ⟨fetch t1, t1⟩, false))
    ∧ (ttlSeconds ≤ t2 - t1 →
        cachedCall fetch (some ⟨fetch t1, t1⟩) t2
          = (fetch t2, some ⟨fetch t2, t2⟩, true)) := by
  refine ⟨rfl, ?_, ?_⟩
  · intro h; simp [cachedCall, h]
  · intro h; simp [cachedCall, Nat.not_lt.mpr h]

/-- Witness for C9: with a constant loader, an access 1000 s after the
fetch hits the cache and does not rerun the loader, while an access
4000 s after the fetch reruns it. -/
theorem C9_cache_ttl_witness :
    cachedCall (fun _ => ([] : List SaleRecord)) (some ⟨[], 1000⟩) 2000
      = ([], some ⟨[], 1000⟩, false)
    ∧ cachedCall (fun _ => ([] : List SaleRecord)) (some ⟨[], 1000⟩) 5000
      = ([], some ⟨[], 5000⟩, true) := by
  constructor
  · exact (C9_cache_ttl (fun _ => []) 1000 2000).2.1 (by decide)
  · exact (C9_cache_ttl (fun _ => []) 1000 5000).2.2 (by decide)

/-- Claim C10: the date-picker bounds stage fails on an empty table —
`Series.min()` is `NaT` there and `NaT.date()` raises — so the render only
completes when the loader returned at least one record, in which case the
bounds are the minimum and maximum of the date column. -/
theorem C10_empty_table_bounds :
    datePickerBounds [] = Except.error "NaTType does not support date"
    ∧ ∀ (r : SaleRecord) (l : List SaleRecord),
        datePickerBounds (r :: l)
          = Except.ok ((l.map (fun x => x.data.day)).foldl min r.data.day,
                       (l.map (fun x => x.data.day)).foldl max r.data.day) :=
  ⟨rfl, fun _ _ => rfl⟩

end SantaCasa
